import Mathlib

/-!
Verification of the Euphonica dynamic-playlist core: a shallow embedding of
the rule resolver, comparator builder, fetch orchestrator
(src/client/background.rs), the SQLite-backed store (src/cache/sqlite.rs) and
the sticker parser (src/common/sticker.rs), with theorems settling the
behavioural claims about them.

Machine integers are modelled as Int with explicit range constants; fallible
Rust code returns Option or Except; a Rust panic (unwrap, expect,
unreachable) is modelled as the none case of an Option-valued result.
Remote-server behaviour (the MPD daemon, an external collaborator) is
modelled as explicit oracle fields on a server/client state record.
-/

namespace Euphonica

/-- Result of a comparison; the source aliases std::cmp::Ordering as
StdOrdering, which we mirror here. -/
inductive StdOrdering
  | lt
  | eq
  | gt
deriving DecidableEq, Repr

/-- i64::MAX. -/
def I64_MAX : Int := 9223372036854775807

/-- i64::MIN. -/
def I64_MIN : Int := -9223372036854775808

/-- Comparison on Int, as Rust Ord for i64. -/
def cmpInt (a b : Int) : StdOrdering :=
  if a < b then .lt else if b < a then .gt else .eq

/-- Lexicographic comparison on char lists, as Rust Ord for String. -/
def cmpChars : List Char → List Char → StdOrdering
  | [], [] => .eq
  | [], _ :: _ => .lt
  | _ :: _, [] => .gt
  | a :: as_, b :: bs =>
    if a < b then .lt
    else if b < a then .gt
    else cmpChars as_ bs

/-- Comparison on String via its character list. -/
def cmpString (a b : String) : StdOrdering :=
  cmpChars a.data b.data

/-! ## Model of Rust string parsing (str::parse with trim)

Rust `val.trim().parse::<iN>()` accepts an optional sign followed by at
least one ASCII digit, and fails on overflow. `trim` removes whitespace
from both ends. -/

/-- Digits-only parse of a char list; none when empty or a non-digit occurs. -/
def parse_digits (cs : List Char) : Option Nat :=
  if cs.isEmpty then none
  else cs.foldl
    (fun acc c => acc.bind fun n =>
      if c.isDigit then some (n * 10 + (c.toNat - 48)) else none)
    (some 0)

/-- Signed integer parse of a char list (optional leading sign). -/
def parse_signed (cs : List Char) : Option Int :=
  match cs with
  | '-' :: rest => (parse_digits rest).map fun n => -(n : Int)
  | '+' :: rest => (parse_digits rest).map fun n => (n : Int)
  | _ => (parse_digits cs).map fun n => (n : Int)

/-- str::trim on the character list. -/
def trim_chars (cs : List Char) : List Char :=
  ((cs.dropWhile Char.isWhitespace).reverse.dropWhile Char.isWhitespace).reverse

/-- Model of val.trim().parse::<i64>(). -/
def parse_i64 (s : String) : Option Int :=
  (parse_signed (trim_chars s.data)).bind fun v =>
    if I64_MIN ≤ v ∧ v ≤ I64_MAX then some v else none

/-- Model of val.trim().parse::<i8>(). -/
def parse_i8 (s : String) : Option Int :=
  (parse_signed (trim_chars s.data)).bind fun v =>
    if -128 ≤ v ∧ v ≤ 127 then some v else none

/-! ## Stickers (src/common/sticker.rs) -/

/-- Like status enum from sticker.rs; default is Sideways. -/
inductive Thumbs
  | Up
  | Sideways
  | Down
deriving DecidableEq, Repr

/-- TryFrom i8 for Thumbs: 0 Down, 1 Sideways, 2 Up, otherwise Err. -/
def Thumbs.try_from (value : Int) : Option Thumbs :=
  if value = 0 then some .Down
  else if value = 1 then some .Sideways
  else if value = 2 then some .Up
  else none

/-- chrono DateTime::from_timestamp lower bound in seconds. -/
def CHRONO_TS_MIN : Int := -8334601228800

/-- chrono DateTime::from_timestamp upper bound in seconds. -/
def CHRONO_TS_MAX : Int := 8210298412799

/-- chrono DateTime::from_timestamp(ts, 0): some iff the timestamp is within
the representable range. The DateTime itself is modelled by its unix
timestamp. -/
def datetime_from_timestamp (t : Int) : Option Int :=
  if CHRONO_TS_MIN ≤ t ∧ t ≤ CHRONO_TS_MAX then some t else none

/-- The per-song sticker bag from sticker.rs. Timestamps are modelled as
unix seconds. All fields default exactly as the Rust Default derive. -/
structure Stickers where
  rating : Option Int := none
  like : Thumbs := .Sideways
  elapsed : Option Int := none
  last_played : Option Int := none
  last_skipped : Option Int := none
  play_count : Option Int := none
  skip_count : Option Int := none
deriving DecidableEq, Repr

def Stickers.RATING_KEY : String := "rating"

def Stickers.LIKE_KEY : String := "like"

def Stickers.ELAPSED_KEY : String := "elapsed"

def Stickers.LAST_PLAYED_KEY : String := "lastPlayed"

def Stickers.LAST_SKIPPED_KEY : String := "lastSkipped"

def Stickers.PLAY_COUNT_KEY : String := "playCount"

def Stickers.SKIP_COUNT_KEY : String := "skipCount"

def Stickers.set_rating (s : Stickers) (val : String) : Stickers :=
  match parse_i8 val with
  | some rating => { s with rating := some rating }
  | none => s

def Stickers.set_like (s : Stickers) (val : String) : Stickers :=
  match (parse_i8 val).map Thumbs.try_from with
  | some (some status) => { s with like := status }
  | _ => s

def Stickers.set_elapsed (s : Stickers) (val : String) : Stickers :=
  match parse_i64 val with
  | some elapsed => { s with elapsed := some elapsed }
  | none => s

def Stickers.set_last_played (s : Stickers) (val : String) : Stickers :=
  match (parse_i64 val).map datetime_from_timestamp with
  | some maybe_dt => { s with last_played := maybe_dt }
  | none => s

def Stickers.set_last_skipped (s : Stickers) (val : String) : Stickers :=
  match (parse_i64 val).map datetime_from_timestamp with
  | some maybe_dt => { s with last_skipped := maybe_dt }
  | none => s

def Stickers.set_play_count (s : Stickers) (val : String) : Stickers :=
  match parse_i64 val with
  | some count => { s with play_count := some count }
  | none => s

def Stickers.set_skip_count (s : Stickers) (val : String) : Stickers :=
  match parse_i64 val with
  | some count => { s with skip_count := some count }
  | none => s

/-- One iteration of the from_mpd_kv loop body. -/
def Stickers.apply_kv (res : Stickers) (kv : String × String) : Stickers :=
  if kv.fst == Stickers.RATING_KEY then res.set_rating kv.snd
  else if kv.fst == Stickers.LIKE_KEY then res.set_like kv.snd
  else if kv.fst == Stickers.ELAPSED_KEY then res.set_elapsed kv.snd
  else if kv.fst == Stickers.LAST_PLAYED_KEY then res.set_last_played kv.snd
  else if kv.fst == Stickers.LAST_SKIPPED_KEY then res.set_last_skipped kv.snd
  else if kv.fst == Stickers.PLAY_COUNT_KEY then res.set_play_count kv.snd
  else if kv.fst == Stickers.SKIP_COUNT_KEY then res.set_skip_count kv.snd
  else res

/-- Stickers::from_mpd_kv: fold the key-value pairs over a default record. -/
def Stickers.from_mpd_kv (kvs : List (String × String)) : Stickers :=
  kvs.foldl Stickers.apply_kv {}

/-- A key the from_mpd_kv match recognises. -/
def sticker_key_known (k : String) : Bool :=
  k == Stickers.RATING_KEY || k == Stickers.LIKE_KEY ||
  k == Stickers.ELAPSED_KEY || k == Stickers.LAST_PLAYED_KEY ||
  k == Stickers.LAST_SKIPPED_KEY || k == Stickers.PLAY_COUNT_KEY ||
  k == Stickers.SKIP_COUNT_KEY

/-- A pair whose value parses as the expected type of its (recognised) key,
and hence can move the corresponding field off its default. -/
def sticker_pair_effective (kv : String × String) : Bool :=
  if kv.fst == Stickers.RATING_KEY then (parse_i8 kv.snd).isSome
  else if kv.fst == Stickers.LIKE_KEY then
    match parse_i8 kv.snd with
    | some n => (Thumbs.try_from n).isSome
    | none => false
  else if kv.fst == Stickers.ELAPSED_KEY then (parse_i64 kv.snd).isSome
  else if kv.fst == Stickers.LAST_PLAYED_KEY then
    match parse_i64 kv.snd with
    | some ts => (datetime_from_timestamp ts).isSome
    | none => false
  else if kv.fst == Stickers.LAST_SKIPPED_KEY then
    match parse_i64 kv.snd with
    | some ts => (datetime_from_timestamp ts).isSome
    | none => false
  else if kv.fst == Stickers.PLAY_COUNT_KEY then (parse_i64 kv.snd).isSome
  else if kv.fst == Stickers.SKIP_COUNT_KEY then (parse_i64 kv.snd).isSome
  else false

/-! ## Rule model (src/common/dynamic_playlist.rs)

The copy of dynamic_playlist.rs under src/ is an older revision; the
revision background.rs and sqlite.rs compile against adds StickerObjectType,
the object-type field on Rule::Sticker, the Ordering enum and the extended
DynamicPlaylist struct. Those declarations are reconstructed here from
their exhaustive uses in background.rs and sqlite.rs and from the spec
data model, which agree. -/

/-- mpd::search::Operation, the tag sub-operator. -/
inductive TagOperation
  | Equals
  | NotEquals
  | Contains
  | StartsWith
deriving DecidableEq, Repr

/-- StickerOperation from dynamic_playlist.rs. -/
inductive StickerOperation
  | LessThan
  | GreaterThan
  | Contains
  | StartsWith
  | IntEquals
  | IntLessThan
  | IntGreaterThan
deriving DecidableEq, Repr

/-- StickerOperation::to_mpd_syntax. -/
def StickerOperation.to_mpd_syntax : StickerOperation → String
  | .LessThan => "<"
  | .GreaterThan => ">"
  | .Contains => "contains"
  | .StartsWith => "starts_with"
  | .IntEquals => "eq"
  | .IntLessThan => "lt"
  | .IntGreaterThan => "gt"

/-- Sticker object types, per the spec data model (Song, Album, Playlist)
and the match arms of fetch_uris_by_sticker (Song, Playlist, and a
tag-type fallthrough used with to_str as a tag name). -/
inductive StickerObjectType
  | Song
  | Album
  | Playlist
deriving DecidableEq, Repr

/-- StickerObjectType::to_str: the MPD object-type token, doubling as the
tag name for tag-object types. -/
def StickerObjectType.to_str : StickerObjectType → String
  | .Song => "song"
  | .Album => "album"
  | .Playlist => "playlist"

/-- QueryLhs from dynamic_playlist.rs. -/
inductive QueryLhs
  | File
  | Base
  | LastMod
  | Any (op : TagOperation)
  | Album (op : TagOperation)
  | AlbumArtist (op : TagOperation)
  | Artist (op : TagOperation)
deriving DecidableEq, Repr

/-- mpd query terms used by this code base. -/
inductive Term
  | File
  | Base
  | LastMod
  | AddedSince
  | AnyTag
  | Tag (name : String)
deriving DecidableEq, Repr

/-- One filter of an mpd query: term, sub-operator, right-hand side.
Query::and uses the default Equals operation; and_with_op sets it. -/
structure QueryFilter where
  term : Term
  op : TagOperation
  rhs : String
deriving DecidableEq, Repr

/-- An mpd::Query is the conjunction of its filters. -/
def Query := List QueryFilter

/-- Query::and (default Equals operation). -/
def Query.and (q : Query) (t : Term) (rhs : String) : Query :=
  List.append q [⟨t, .Equals, rhs⟩]

/-- Query::and_with_op. -/
def Query.and_with_op (q : Query) (t : Term) (op : TagOperation) (rhs : String) : Query :=
  List.append q [⟨t, op, rhs⟩]

/-- QueryLhs::add_to_query from dynamic_playlist.rs. -/
def QueryLhs.add_to_query (lhs : QueryLhs) (query : Query) (rhs : String) : Query :=
  match lhs with
  | .File => query.and .File rhs
  | .Base => query.and .Base rhs
  | .LastMod => query.and .LastMod rhs
  | .Any op => query.and_with_op .AnyTag op rhs
  | .Album op => query.and_with_op (.Tag "album") op rhs
  | .AlbumArtist op => query.and_with_op (.Tag "albumartist") op rhs
  | .Artist op => query.and_with_op (.Tag "artist") op rhs

/-- Rule from dynamic_playlist.rs (current revision: Sticker carries the
object type as its first field, as matched in resolve_dynamic_playlist_rules). -/
inductive Rule
  | Sticker (obj : StickerObjectType) (key : String) (op : StickerOperation) (rhs : String)
  | Query (lhs : QueryLhs) (rhs : String)
  | LastModified (secs : Int)
deriving DecidableEq, Repr

/-- Ordering keys, reconstructed from the exhaustive match in
build_comparator. -/
inductive Ordering
  | AscAlbumTitle
  | DescAlbumTitle
  | Track
  | AscReleaseDate
  | DescReleaseDate
  | AscArtistTag
  | DescArtistTag
  | AscRating
  | DescRating
  | AscLastModified
  | DescLastModified
  | AscPlayCount
  | DescPlayCount
  | AscSkipCount
  | DescSkipCount
  | Random
deriving DecidableEq, Repr

/-- AutoRefresh enum, per the spec data model. -/
inductive AutoRefresh
  | None
  | Hourly
  | Daily
  | Weekly
  | Monthly
  | Yearly
deriving DecidableEq, Repr

/-- Modelled from the spec: AutoRefresh::to_str (the current
dynamic_playlist.rs revision is not under src/); sqlite.rs stores this
string in the auto_refresh column. The exact tokens are unobservable; only
that from_str inverts to_str matters to the claims. -/
def AutoRefresh.to_str : AutoRefresh → String
  | .None => "none"
  | .Hourly => "hourly"
  | .Daily => "daily"
  | .Weekly => "weekly"
  | .Monthly => "monthly"
  | .Yearly => "yearly"

/-- Modelled from the spec: AutoRefresh::from_str, the partial inverse of
to_str used (and unwrapped) by get_dynamic_playlist_info. -/
def AutoRefresh.from_str (s : String) : Option AutoRefresh :=
  if s == "none" then some .None
  else if s == "hourly" then some .Hourly
  else if s == "daily" then some .Daily
  else if s == "weekly" then some .Weekly
  else if s == "monthly" then some .Monthly
  else if s == "yearly" then some .Yearly
  else none

/-! ## Server model

The MPD daemon is an external collaborator. Its windowed attribute search
is given concrete filter semantics over a song library so that the
trivially-true seed clause can be reasoned about; the sticker-comparison
endpoint and playlist listing are abstract oracles returning full ordered
match lists, of which each round-trip requests one window. -/

/-- Album info subset used by the comparator. -/
structure AlbumInfo where
  title : String
deriving DecidableEq, Repr

/-- SongInfo subset carrying the fields the resolver, comparator and
orchestrator read. track mirrors the i64 cell whose no-track sentinel is
negative; dates and times are modelled as integers. -/
structure SongInfo where
  uri : String
  album : Option AlbumInfo := none
  track : Int := -1
  release_date : Option Int := none
  artist_tag : Option String := none
  last_modified : Option Int := none
deriving DecidableEq, Repr

/-- A song as the server knows it: the client-visible SongInfo plus the
server-side attributes that queries filter on. -/
structure ServerSong where
  info : SongInfo
  tags : List (String × String) := []
  lastMod : Int := 0
  added : Int := 0
deriving DecidableEq, Repr

/-- Whether needle occurs contiguously inside hay. -/
def chars_contain (hay needle : List Char) : Bool :=
  (List.range (hay.length + 1)).any fun i => needle.isPrefixOf (hay.drop i)

/-- Tag sub-operator semantics. -/
def tag_op_matches (op : TagOperation) (v rhs : String) : Bool :=
  match op with
  | .Equals => v == rhs
  | .NotEquals => v != rhs
  | .Contains => chars_contain v.data rhs.data
  | .StartsWith => rhs.isPrefixOf v

/-- Whether a server song satisfies one query filter. -/
def matches_filter (s : ServerSong) (f : QueryFilter) : Bool :=
  match f.term with
  | .File => s.info.uri == f.rhs
  | .Base => f.rhs.isPrefixOf s.info.uri
  | .LastMod =>
    match parse_signed f.rhs.data with
    | some v => decide (v ≤ s.lastMod)
    | none => false
  | .AddedSince =>
    match parse_signed f.rhs.data with
    | some v => decide (v ≤ s.added)
    | none => false
  | .AnyTag => s.tags.any fun kv => tag_op_matches f.op kv.snd f.rhs
  | .Tag name => s.tags.any fun kv => kv.fst == name && tag_op_matches f.op kv.snd f.rhs

/-- Whether a server song satisfies every filter of a query (find ANDs
all filters). -/
def matches_query (s : ServerSong) (q : Query) : Bool :=
  q.all (matches_filter s)

/-- The server-and-connection state a background fetch talks to.
protocolMinor is client.version.1. stickerFind maps
(object type token, scope, sticker key, operation token, rhs) to the full
ordered result list of find_sticker_op, of which each round-trip returns
one 128-record window. playlistSongs is the full content listing of one
stored playlist. -/
structure ServerState where
  library : List ServerSong
  stickerFind : String → String → String → String → String → List String
  playlistSongs : String → List ServerSong
  protocolMinor : Nat := 24
deriving Inhabited

/-- Full result list of client.find(query, window) before windowing. -/
def ServerState.queryResults (srv : ServerState) (q : Query) : List ServerSong :=
  srv.library.filter (fun s => matches_query s q)

/-! ## Paged fetch helpers (src/client/background.rs) -/

/-- Fixed window size of every paged remote fetch. -/
def BATCH_SIZE : Nat := 128

/-- Upper bound on records fetched by one paging loop. -/
def FETCH_LIMIT : Nat := 10000000

/-- Loop body of fetch_songs_by_query: request contiguous BATCH_SIZE
windows of the query result, stopping at the first empty window or at
FETCH_LIMIT. The fuel argument only bounds recursion; FETCH_LIMIT units
always outlast the loop because curr grows by BATCH_SIZE per step. -/
def fetch_songs_by_query_loop (srv : ServerState) (q : Query) :
    Nat → Nat → List ServerSong
  | 0, _ => []
  | fuel + 1, curr =>
    if curr < FETCH_LIMIT then
      let songs := ((srv.queryResults q).drop curr).take BATCH_SIZE
      if songs.isEmpty then []
      else songs ++ fetch_songs_by_query_loop srv q fuel (curr + BATCH_SIZE)
    else []

/-- fetch_songs_by_query: all responded batches, concatenated in order. -/
def fetch_songs_by_query (srv : ServerState) (q : Query) : List ServerSong :=
  fetch_songs_by_query_loop srv q FETCH_LIMIT 0

/-- Paged branch of fetch_playlist_songs_internal (protocol 0.24+): the
loop advances by the number of records returned and continues while a full
window came back. -/
def fetch_playlist_songs_paged (content : List ServerSong) :
    Nat → Nat → List ServerSong
  | 0, _ => []
  | fuel + 1, curr =>
    if curr < FETCH_LIMIT then
      let songs := (content.drop curr).take BATCH_SIZE
      if songs.length ≥ BATCH_SIZE then
        songs ++ fetch_playlist_songs_paged content fuel (curr + songs.length)
      else songs
    else []

/-- fetch_playlist_songs_internal: one unpaged listing before protocol
0.24, the paged loop from 0.24 on. -/
def fetch_playlist_songs_internal (srv : ServerState) (name : String) :
    List ServerSong :=
  if srv.protocolMinor < 24 then srv.playlistSongs name
  else fetch_playlist_songs_paged (srv.playlistSongs name) FETCH_LIMIT 0

/-- Loop of fetch_uris_by_sticker, returning the responded URIs in order
together with the number of find_sticker_op round-trips issued. Faithful
to the source: the Song arm advances curr_len by BATCH_SIZE inside the
match and the shared increment after the match runs as well, so Song
windows advance by 2 * BATCH_SIZE per round-trip; Playlist and tag-object
arms advance by BATCH_SIZE only. -/
def fetch_uris_by_sticker_loop (srv : ServerState) (obj : StickerObjectType)
    (sticker op_str rhs scope : String) : Nat → Nat → List String × Nat
  | 0, _ => ([], 0)
  | fuel + 1, curr =>
    if curr < FETCH_LIMIT then
      let names := ((srv.stickerFind obj.to_str scope sticker op_str rhs).drop curr).take BATCH_SIZE
      if names.isEmpty then ([], 1)
      else
        match obj with
        | .Song =>
          let rest := fetch_uris_by_sticker_loop srv .Song sticker op_str rhs scope
            fuel (curr + BATCH_SIZE + BATCH_SIZE)
          (names ++ rest.1, 1 + rest.2)
        | .Playlist =>
          let expanded := (names.map fun playlist_name =>
            (fetch_playlist_songs_internal srv playlist_name).map fun song => song.info.uri).flatten
          let rest := fetch_uris_by_sticker_loop srv .Playlist sticker op_str rhs scope
            fuel (curr + BATCH_SIZE)
          (expanded ++ rest.1, 1 + rest.2)
        | tag_type =>
          let expanded := (names.map fun tag_value =>
            (fetch_songs_by_query srv (Query.and [] (.Tag tag_type.to_str) tag_value)).map
              fun song => song.info.uri).flatten
          let rest := fetch_uris_by_sticker_loop srv tag_type sticker op_str rhs scope
            fuel (curr + BATCH_SIZE)
          (expanded ++ rest.1, 1 + rest.2)
    else ([], 0)

/-- fetch_uris_by_sticker: responded URIs plus sticker-endpoint round-trip
count. -/
def fetch_uris_by_sticker (srv : ServerState) (obj : StickerObjectType)
    (sticker : String) (op : StickerOperation) (rhs : String)
    (only_in : Option String) : List String × Nat :=
  fetch_uris_by_sticker_loop srv obj sticker op.to_mpd_syntax rhs
    (only_in.getD "") FETCH_LIMIT 0

/-! ## Rule resolver (resolve_dynamic_playlist_rules) -/

/-- get_past_unix_timestamp: current time minus the backoff, in seconds. -/
def get_past_unix_timestamp (now backoff : Int) : Int :=
  now - backoff

/-- A sticker clause as pushed by the partitioning loop: the four fields of
the (StickerObjectType, String, StickerOperation, String) tuple. -/
structure StickerClause where
  obj : StickerObjectType
  key : String
  op : StickerOperation
  rhs : String
deriving DecidableEq, Repr

/-- The rule-partitioning loop at the top of resolve_dynamic_playlist_rules:
sticker rules go right, query rules left, LastModified rules become
LastMod query clauses against now - secs. -/
def partition_rules (now : Int) (rules : List Rule) :
    List (QueryLhs × String) × List StickerClause :=
  rules.foldl
    (fun acc rule =>
      match rule with
      | .Sticker obj key op rhs => (acc.1, acc.2 ++ [⟨obj, key, op, rhs⟩])
      | .Query lhs rhs => (acc.1 ++ [(lhs, rhs)], acc.2)
      | .LastModified secs =>
        (acc.1 ++ [(.LastMod, toString (get_past_unix_timestamp now secs))], acc.2))
    ([], [])

/-- The combined attribute query: AND of all query clauses, or the dummy
AddedSince i64::MIN term when none exist. -/
def build_combined_query (query_clauses : List (QueryLhs × String)) : Query :=
  if query_clauses.isEmpty then Query.and [] .AddedSince (toString I64_MIN)
  else query_clauses.foldl (fun q c => c.1.add_to_query q c.2) []

/-- Per-clause fetch of the sticker loop body: lastPlayed and lastSkipped
clauses convert their right-hand side to an absolute past timestamp first,
unwrapping the i64 parse (none models that panic). -/
def clause_fetch (srv : ServerState) (now : Int) (c : StickerClause) :
    Option (List String × Nat) :=
  if c.key == Stickers.LAST_PLAYED_KEY || c.key == Stickers.LAST_SKIPPED_KEY then
    (parse_i64 c.rhs).map fun backoff =>
      fetch_uris_by_sticker srv c.obj c.key c.op
        (toString (get_past_unix_timestamp now backoff)) none
  else some (fetch_uris_by_sticker srv c.obj c.key c.op c.rhs none)

/-- The sticker-clause loop of resolve_dynamic_playlist_rules: fetch each
match set, retain the intersection, return early with the empty vector
once the running set is empty. Alongside the result it reports the number
of find_sticker_op round-trips per clause (0 for clauses never reached). -/
def resolve_sticker_clauses (srv : ServerState) (now : Int) :
    List StickerClause → List String → Option (List String × List Nat)
  | [], res => some (res, [])
  | c :: rest, res =>
    match clause_fetch srv now c with
    | none => none
    | some fetched =>
      let res2 := res.filter fun elem => fetched.1.contains elem
      if res2.isEmpty then some ([], fetched.2 :: rest.map fun _ => 0)
      else (resolve_sticker_clauses srv now rest res2).map fun p =>
        (p.1, fetched.2 :: p.2)

/-- resolve_dynamic_playlist_rules: partition the rules, seed the running
set from the combined attribute query (the FxHashSet is modelled as a
deduplicated list), then intersect each sticker-clause match set in turn.
none models the panic on an unparsable lastPlayed or lastSkipped
right-hand side. -/
def resolve_dynamic_playlist_rules (srv : ServerState) (now : Int)
    (rules : List Rule) : Option (List String × List Nat) :=
  let parts := partition_rules now rules
  let seed := ((fetch_songs_by_query srv (build_combined_query parts.1)).map
    fun s => s.info.uri).dedup
  resolve_sticker_clauses srv now parts.2 seed

/-! ## Comparator builder (build_comparator, background.rs) -/

/-- std::cmp::Ordering::reverse. -/
def StdOrdering.reverse : StdOrdering → StdOrdering
  | .lt => .gt
  | .eq => .eq
  | .gt => .lt

/-- cmp_options_nulls_last from background.rs: nulls sort last. -/
def cmp_options_nulls_last (cmp : α → α → StdOrdering) :
    Option α → Option α → StdOrdering
  | some val_a, some val_b => cmp val_a val_b
  | some _, none => .lt
  | none, some _ => .gt
  | none, none => .eq

/-- reverse_cmp_options_nulls_last: reversed comparison, nulls still last. -/
def reverse_cmp_options_nulls_last (cmp : α → α → StdOrdering) :
    Option α → Option α → StdOrdering
  | some val_a, some val_b => (cmp val_a val_b).reverse
  | some _, none => .lt
  | none, some _ => .gt
  | none, none => .eq

/-- One arm of the per-key match inside the build_comparator closure.
none models the unreachable panic of the Random arm. -/
def cmp_by_key (o : Ordering) (a b : SongInfo × Stickers) : Option StdOrdering :=
  match o with
  | .AscAlbumTitle =>
    some (cmp_options_nulls_last cmpString
      (a.1.album.map AlbumInfo.title) (b.1.album.map AlbumInfo.title))
  | .DescAlbumTitle =>
    some (reverse_cmp_options_nulls_last cmpString
      (a.1.album.map AlbumInfo.title) (b.1.album.map AlbumInfo.title))
  | .Track =>
    let track_a := if a.1.track < 0 then I64_MAX else a.1.track
    let track_b := if b.1.track < 0 then I64_MAX else b.1.track
    some (cmpInt track_a track_b)
  | .AscReleaseDate =>
    some (cmp_options_nulls_last cmpInt a.1.release_date b.1.release_date)
  | .DescReleaseDate =>
    some (reverse_cmp_options_nulls_last cmpInt a.1.release_date b.1.release_date)
  | .AscArtistTag =>
    some (cmp_options_nulls_last cmpString a.1.artist_tag b.1.artist_tag)
  | .DescArtistTag =>
    some (reverse_cmp_options_nulls_last cmpString a.1.artist_tag b.1.artist_tag)
  | .AscRating =>
    some (cmp_options_nulls_last cmpInt a.2.rating b.2.rating)
  | .DescRating =>
    some (reverse_cmp_options_nulls_last cmpInt a.2.rating b.2.rating)
  | .AscLastModified =>
    some (cmp_options_nulls_last cmpInt a.1.last_modified b.1.last_modified)
  | .DescLastModified =>
    some (reverse_cmp_options_nulls_last cmpInt a.1.last_modified b.1.last_modified)
  | .AscPlayCount =>
    some (cmp_options_nulls_last cmpInt a.2.play_count b.2.play_count)
  | .DescPlayCount =>
    some (reverse_cmp_options_nulls_last cmpInt a.2.play_count b.2.play_count)
  | .AscSkipCount =>
    some (cmp_options_nulls_last cmpInt a.2.skip_count b.2.skip_count)
  | .DescSkipCount =>
    some (reverse_cmp_options_nulls_last cmpInt a.2.skip_count b.2.skip_count)
  | .Random => none

/-- The closure returned by build_comparator: iterate the ordering keys,
return the first non-equal comparison, equal when all keys tie. none
models the panic of the Random arm reaching evaluation. -/
def build_comparator (orderings : List Ordering) (a b : SongInfo × Stickers) :
    Option StdOrdering :=
  match orderings with
  | [] => some .eq
  | o :: rest =>
    match cmp_by_key o a b with
    | none => none
    | some res => if res ≠ .eq then some res else build_comparator rest a b

/-! ## Dynamic playlist record and embedded store (src/cache/sqlite.rs)

The DynamicPlaylist struct follows the fields read and written by
sqlite.rs (the current common/dynamic_playlist.rs revision is not under
src/; sqlite.rs and background.rs agree on these fields). -/

structure DynamicPlaylist where
  name : String
  rules : List Rule
  ordering : List Ordering
  auto_refresh : AutoRefresh := .None
  last_queued : Option Int := none
  last_refresh : Option Int := none
  play_count : Int := 0
  limit : Option Nat := none
deriving DecidableEq, Repr

/-- The store error taxonomy of sqlite.rs. -/
inductive Error
  | DbError
  | KeyAlreadyExists
  | InsufficientKey
  | ObjectToDocError
  | DocToBytesError
deriving DecidableEq, Repr

/-- The bson blob stored in the queries table: either a document holding
the serialised rules and ordering, or bytes that fail to decode
(standing for every decode-failure mode of the row mapper:
Document::from_reader, field extraction, deserialize_from_bson). -/
inductive BsonBlob
  | doc (rules : List Rule) (ordering : List Ordering)
  | malformed
deriving DecidableEq, Repr

/-- Decoding the blob back into rules and ordering. -/
def decode_blob : BsonBlob → Option (List Rule × List Ordering)
  | .doc rules ordering => some (rules, ordering)
  | .malformed => none

/-- OffsetDateTime::from_unix_timestamp(...).ok(): some iff within the
representable year range. -/
def offsetdatetime_from_unix (t : Int) : Option Int :=
  if -377705116800 ≤ t ∧ t ≤ 253402300799 then some t else none

/-- One row of the queries table. The last_modified column (stamped from
the wall clock on insert) is never read back by the functions under
verification and is omitted. -/
structure QueryRow where
  name : String
  bson : BsonBlob
  last_queued : Option Int := none
  play_count : Int := 0
  auto_refresh : String := "none"
  last_refresh : Option Int := none
  limit : Option Nat := none
deriving DecidableEq, Repr

/-- The embedded database state visible to the claims: the queries table,
the query_results rows (query_name, uri) and the images registry rows
(key, path). -/
structure DbState where
  queries : List QueryRow
  query_results : List (String × String) := []
  images : List (String × String) := []
deriving DecidableEq, Repr

/-- The image-registry key format "dynamic_playlist:{name}". -/
def dp_image_key (name : String) : String :=
  "dynamic_playlist:" ++ name

/-- insert_dynamic_playlist: one transaction that (when overwriting)
deletes the row under the overwrite target and runs the image-key UPDATE
exactly as the source binds its parameters (set key to the OLD-name key
wherever the key equals the NEW-name key), then checks uniqueness of
dp.name inside the transaction and inserts, rolling back on a duplicate.
The returned state is the committed (or rolled-back) database. Database
faults are not modelled; bson serialisation of the rules and ordering
enums cannot fail and is modelled total. -/
def insert_dynamic_playlist (st : DbState) (dp : DynamicPlaylist)
    (overwrite_name : Option String) : Except Error Unit × DbState :=
  let tx :=
    match overwrite_name with
    | some to_overwrite =>
      let tx1 := { st with queries := st.queries.filter fun (r : QueryRow) => r.name ≠ to_overwrite }
      if to_overwrite ≠ dp.name then
        { tx1 with images := tx1.images.map fun (r : String × String) =>
            if r.1 = dp_image_key dp.name then (dp_image_key to_overwrite, r.2) else r }
      else tx1
    | none => st
  let count := (tx.queries.filter fun (r : QueryRow) => r.name = dp.name).length
  if count > 0 then (.error .KeyAlreadyExists, st)
  else
    let row : QueryRow :=
      { name := dp.name
        bson := .doc dp.rules dp.ordering
        last_queued := dp.last_queued.bind offsetdatetime_from_unix
        play_count := dp.play_count
        auto_refresh := dp.auto_refresh.to_str
        last_refresh := dp.last_refresh.bind offsetdatetime_from_unix
        limit := dp.limit }
    (.ok (), { tx with queries := tx.queries ++ [row] })

/-- get_dynamic_playlist_info: Ok none when no row matches; otherwise the
row mapper decodes the blob and the auto_refresh marker, unwrapping both
(the outer none models those panics). -/
def get_dynamic_playlist_info (st : DbState) (name : String) :
    Option (Except Error (Option DynamicPlaylist)) :=
  match st.queries.find? (fun r => r.name == name) with
  | none => some (.ok none)
  | some r =>
    match decode_blob r.bson with
    | none => none
    | some decoded =>
      match AutoRefresh.from_str r.auto_refresh with
      | none => none
      | some ar =>
        some (.ok (some
          { name := r.name
            rules := decoded.1
            ordering := decoded.2
            auto_refresh := ar
            last_queued := r.last_queued
            last_refresh := r.last_refresh
            play_count := r.play_count
            limit := r.limit }))

/-- get_cached_dynamic_playlist_results: plain read of the stored URI
sequence for one DP name. -/
def get_cached_dynamic_playlist_results (st : DbState) (name : String) :
    List String :=
  (st.query_results.filter fun r => r.1 = name).map fun r => r.2

/-! ## Playlist fetch orchestrator (fetch_dynamic_playlist) -/

/-- The background client: the server plus the per-call success oracles of
the connection operations the orchestrator uses. findByUri models
client.find(File == uri, None); stickersFor models client.stickers. -/
structure BgClient where
  srv : ServerState
  now : Int
  tagtypesClearOk : Bool := true
  tagtypesEnableOk : Bool := true
  tagtypesAllOk : Bool := true
  findByUri : String → Except Unit (List SongInfo)
  stickersFor : String → Except Unit (List (String × String))

/-- fetch_songs_by_uri: hydrate each URI with one find round-trip, aborting
on the first error; absent rows are skipped; stickers are fetched per song
when requested, a failed sticker fetch yielding none. -/
def fetch_songs_by_uri (c : BgClient) :
    List String → Bool → Except Unit (List (SongInfo × Option Stickers))
  | [], _ => .ok []
  | uri :: rest, fetch_stickers =>
    match c.findByUri uri with
    | .error e => .error e
    | .ok found =>
      match fetch_songs_by_uri c rest fetch_stickers with
      | .error e => .error e
      | .ok tail =>
        match found with
        | [] => .ok tail
        | song :: _ =>
          .ok ((song,
            if fetch_stickers then (c.stickersFor uri).toOption.map Stickers.from_mpd_kv
            else none) :: tail)

/-- The batch-streaming while loop: slices of at most BATCH_SIZE songs in
order. Fuel songs.length outlasts the loop since every slice is
non-empty. -/
def batch_loop (songs : List SongInfo) : Nat → Nat → List (List SongInfo)
  | 0, _ => []
  | fuel + 1, curr =>
    if curr < songs.length then
      let next := min (curr + BATCH_SIZE) songs.length
      ((songs.drop curr).take (next - curr)) :: batch_loop songs fuel next
    else []

/-- All non-sentinel batches streamed for a song list. -/
def send_batches (songs : List SongInfo) : List (List SongInfo) :=
  batch_loop songs songs.length 0

/-- Insert one element into an already-sorted list, propagating a
comparator panic (none) outward, as a panicking comparator aborts
sort_by. The element goes after every strictly-greater comparison. -/
def insert_cmp (cmp : α → α → Option StdOrdering) (a : α) :
    List α → Option (List α)
  | [] => some [a]
  | b :: bs =>
    match cmp a b with
    | none => none
    | some .gt => (insert_cmp cmp a bs).map fun l => b :: l
    | some _ => some (a :: b :: bs)

/-- Model of slice::sort_by with a comparator that can panic: a stable
sort in the Option monad, none when any performed comparison reaches the
panic. Zero comparisons are performed on lists of length at most one,
matching sort_by. (The comparison schedule differs from the Rust standard
sort, so exactly which partially-panicking comparators panic is
approximated; the theorems below only rely on total comparators, where
both sorts succeed, and on the all-panicking Random-only case.) -/
def sort_by_cmp (cmp : α → α → Option StdOrdering) : List α → Option (List α)
  | [] => some []
  | a :: as_ => (sort_by_cmp cmp as_).bind (insert_cmp cmp a)

/-- Outcome of one fetch_dynamic_playlist call: the
DynamicPlaylistSongInfoDownloaded batches emitted in order, and whether
the call panicked. -/
structure FetchResult where
  msgs : List (List SongInfo)
  panicked : Bool
deriving DecidableEq, Repr

/-- fetch_dynamic_playlist: clear tag reporting, resolve, re-enable tags
(expect), hydrate, unwrap each sticker bag, sort, truncate to the limit,
stream batches then the empty sentinel, restore tags (expect). A
comparator panic inside sort_by (the Random arm, build_comparator = none)
aborts the call before anything is sent: no batch and no sentinel. The
cache branch only writes to the store (failures logged), never altering
the emitted messages, and is omitted from this message-trace model. -/
def fetch_dynamic_playlist (c : BgClient) (dp : DynamicPlaylist) : FetchResult :=
  if c.tagtypesClearOk then
    match resolve_dynamic_playlist_rules c.srv c.now dp.rules with
    | none => ⟨[], true⟩
    | some resolved =>
      if ¬ c.tagtypesEnableOk then ⟨[], true⟩
      else
        match fetch_songs_by_uri c resolved.1 true with
        | .error _ => ⟨[], ¬ c.tagtypesAllOk⟩
        | .ok raw =>
          match raw.mapM (fun t => t.2.map fun st => (t.1, st)) with
          | none => ⟨[], true⟩
          | some songs_stickers =>
            if songs_stickers.isEmpty then ⟨[] ++ [[]], ¬ c.tagtypesAllOk⟩
            else
              match sort_by_cmp (build_comparator dp.ordering) songs_stickers with
              | none => ⟨[], true⟩
              | some sorted =>
                let truncated :=
                  match dp.limit with
                  | some l => sorted.take l
                  | none => sorted
                ⟨send_batches (truncated.map fun t => t.1) ++ [[]], ¬ c.tagtypesAllOk⟩
  else ⟨[], false⟩

/-- fetch_dynamic_playlist_cached: read the cached URI sequence, hydrate
without stickers, stream batches then the sentinel; on a hydration error
the if-let fails and nothing is emitted. -/
def fetch_dynamic_playlist_cached (c : BgClient) (st : DbState)
    (name : String) : List (List SongInfo) :=
  match fetch_songs_by_uri c (get_cached_dynamic_playlist_results st name) false with
  | .error _ => []
  | .ok songs_stickers =>
    send_batches (songs_stickers.map fun t => t.1) ++ [[]]

/-! ## Statement-support definitions -/

/-- The URIs of the seed set: the combined attribute query of a rule list,
fetched page by page (before FxHashSet deduplication). -/
def seed_uris (srv : ServerState) (now : Int) (rules : List Rule) : List String :=
  (fetch_songs_by_query srv (build_combined_query (partition_rules now rules).1)).map
    fun s => s.info.uri

/-- The independently-computed match list of one sticker clause (empty when
the clause cannot even be fetched because its right-hand side fails the
i64 parse). -/
def clause_match_uris (srv : ServerState) (now : Int) (c : StickerClause) : List String :=
  ((clause_fetch srv now c).getD ([], 0)).1

/-- The running candidate set after intersecting the match sets of a
clause list, in order, into an initial set. -/
def running_set (srv : ServerState) (now : Int) (init : List String)
    (cs : List StickerClause) : List String :=
  cs.foldl (fun r c => r.filter fun u => (clause_match_uris srv now c).contains u) init

/-- The field a comparator key reads is absent: none for the optional
fields, a negative (sentinel) track number for Track. Random reads no
field. -/
def key_field_null (o : Ordering) (p : SongInfo × Stickers) : Prop :=
  match o with
  | .AscAlbumTitle | .DescAlbumTitle => p.1.album = none
  | .Track => p.1.track < 0
  | .AscReleaseDate | .DescReleaseDate => p.1.release_date = none
  | .AscArtistTag | .DescArtistTag => p.1.artist_tag = none
  | .AscRating | .DescRating => p.2.rating = none
  | .AscLastModified | .DescLastModified => p.1.last_modified = none
  | .AscPlayCount | .DescPlayCount => p.2.play_count = none
  | .AscSkipCount | .DescSkipCount => p.2.skip_count = none
  | .Random => False

/-- The field a comparator key reads is present: some for the optional
fields, and for Track a genuine track number (non-negative, below the
i64 maximum that the sentinel is remapped to). -/
def key_field_present (o : Ordering) (p : SongInfo × Stickers) : Prop :=
  match o with
  | .AscAlbumTitle | .DescAlbumTitle => p.1.album.isSome
  | .Track => 0 ≤ p.1.track ∧ p.1.track < I64_MAX
  | .AscReleaseDate | .DescReleaseDate => p.1.release_date.isSome
  | .AscArtistTag | .DescArtistTag => p.1.artist_tag.isSome
  | .AscRating | .DescRating => p.2.rating.isSome
  | .AscLastModified | .DescLastModified => p.1.last_modified.isSome
  | .AscPlayCount | .DescPlayCount => p.2.play_count.isSome
  | .AscSkipCount | .DescSkipCount => p.2.skip_count.isSome
  | .Random => False

/-- Modelled from the spec: the Library controller
(library/controller.rs, not under src/) is the caller that hands a
DynamicPlaylist to the background fetch_dynamic_playlist / sort pipeline;
per the spec, an ordering list containing Random must be special-cased
by callers (shuffle instead of sort), so a deterministic comparator is
built from dp.ordering only when Random is absent. -/
def library_comparator_for (dp : DynamicPlaylist) :
    Option ((SongInfo × Stickers) → (SongInfo × Stickers) → Option StdOrdering) :=
  if dp.ordering.contains Ordering.Random then none
  else some (build_comparator dp.ordering)

/-! ## Concrete fixtures for witnesses and counterexamples -/

/-- 130 distinct URIs, more than one window worth of sticker matches. -/
def uris130 : List String :=
  (List.range 130).map fun n => "u" ++ toString n

/-- A server whose sticker endpoint reports the 130 matches for every
sticker comparison. -/
def srv130 : ServerState :=
  { library := []
    stickerFind := fun _ _ _ _ _ => uris130
    playlistSongs := fun _ => [] }

/-- Two-song library for resolver witnesses. -/
def songA : ServerSong := { info := { uri := "a" } }

def songB : ServerSong := { info := { uri := "b" } }

/-- Witness server: the sticker endpoint matches song a for the rating
key and only an out-of-library URI for any other key. -/
def srvW : ServerState :=
  { library := [songA, songB]
    stickerFind := fun _ _ key _ _ => if key == "rating" then ["a"] else ["zzz"]
    playlistSongs := fun _ => [] }

/-- Rule list with one rating sticker clause (non-empty intersection). -/
def rulesW : List Rule :=
  [.Sticker .Song "rating" .IntGreaterThan "5"]

/-- Rule list whose first sticker clause empties the candidate set before
a second clause is reached. -/
def rulesEmptyFirst : List Rule :=
  [.Sticker .Song "playCount" .IntGreaterThan "3",
   .Sticker .Song "rating" .IntGreaterThan "5"]

/-- A stored row named A with a decodable blob. -/
def rowA : QueryRow := { name := "A", bson := .doc [] [] }

/-- Store with row A and a cached image registered under the A key. -/
def stA : DbState :=
  { queries := [rowA], images := [(dp_image_key "A", "cover.png")] }

/-- Store with row A and an image registered under the B (new-name) key. -/
def stA2 : DbState :=
  { queries := [rowA], images := [(dp_image_key "B", "other.png")] }

/-- The playlist being saved under the new name B. -/
def dpB : DynamicPlaylist := { name := "B", rules := [], ordering := [] }

/-- Store holding one row whose blob fails to decode. -/
def st_bad : DbState :=
  { queries := [{ name := "broken", bson := .malformed }] }

/-- One-song server for orchestrator scenarios. -/
def srv_one : ServerState :=
  { library := [songA]
    stickerFind := fun _ _ _ _ _ => []
    playlistSongs := fun _ => [] }

/-- A client whose hydration round-trips all fail. -/
def err_client : BgClient :=
  { srv := srv_one
    now := 0
    findByUri := fun _ => .error ()
    stickersFor := fun _ => .error () }

/-- A client whose hydration round-trips all succeed. -/
def ok_client : BgClient :=
  { srv := srv_one
    now := 0
    findByUri := fun u => .ok [{ uri := u }]
    stickersFor := fun _ => .ok [] }

/-- A rule-free playlist (all-library seed). -/
def dp_plain : DynamicPlaylist := { name := "dp", rules := [], ordering := [] }

/-! ## Theorems -/

theorem apply_kv_unknown (res : Stickers) (kv : String × String)
    (h : sticker_key_known kv.fst = false) : Stickers.apply_kv res kv = res := by
  simp only [sticker_key_known, Bool.or_eq_false_iff] at h
  obtain ⟨⟨⟨⟨⟨⟨h1, h2⟩, h3⟩, h4⟩, h5⟩, h6⟩, h7⟩ := h
  simp [Stickers.apply_kv, h1, h2, h3, h4, h5, h6, h7]

theorem foldl_apply_kv_filter_known (kvs : List (String × String)) :
    ∀ s : Stickers,
      kvs.foldl Stickers.apply_kv s =
        (kvs.filter fun kv => sticker_key_known kv.fst).foldl Stickers.apply_kv s := by
  induction kvs with
  | nil => intro s; rfl
  | cons kv rest ih =>
    intro s
    by_cases h : sticker_key_known kv.fst
    · simp [List.filter_cons, h, ih]
    · simp only [Bool.not_eq_true] at h
      simp [List.filter_cons, h, apply_kv_unknown s kv h, ih]

theorem apply_kv_default (kv : String × String)
    (h : sticker_pair_effective kv = false) :
    Stickers.apply_kv {} kv = {} := by
  unfold Stickers.apply_kv
  unfold sticker_pair_effective at h
  by_cases h1 : kv.fst == Stickers.RATING_KEY
  · simp only [h1, if_true] at h ⊢
    cases hp : parse_i8 kv.snd with
    | none => simp [Stickers.set_rating, hp]
    | some n => rw [hp] at h; simp at h
  · simp only [h1, if_false, Bool.false_eq_true] at h ⊢
    by_cases h2 : kv.fst == Stickers.LIKE_KEY
    · simp only [h2, if_true] at h ⊢
      cases hp : parse_i8 kv.snd with
      | none => simp [Stickers.set_like, hp]
      | some n =>
        simp only [hp] at h
        cases hq : Thumbs.try_from n with
            | none => simp [Stickers.set_like, hp, hq]
            | some t => rw [hq] at h; simp at h
    · simp only [h2, if_false, Bool.false_eq_true] at h ⊢
      by_cases h3 : kv.fst == Stickers.ELAPSED_KEY
      · simp only [h3, if_true] at h ⊢
        cases hp : parse_i64 kv.snd with
        | none => simp [Stickers.set_elapsed, hp]
        | some n => rw [hp] at h; simp at h
      · simp only [h3, if_false, Bool.false_eq_true] at h ⊢
        by_cases h4 : kv.fst == Stickers.LAST_PLAYED_KEY
        · simp only [h4, if_true] at h ⊢
          cases hp : parse_i64 kv.snd with
          | none => simp [Stickers.set_last_played, hp]
          | some ts =>
            simp only [hp] at h
            cases hq : datetime_from_timestamp ts with
              | none => simp [Stickers.set_last_played, hp, hq]
              | some d => rw [hq] at h; simp at h
        · simp only [h4, if_false, Bool.false_eq_true] at h ⊢
          by_cases h5 : kv.fst == Stickers.LAST_SKIPPED_KEY
          · simp only [h5, if_true] at h ⊢
            cases hp : parse_i64 kv.snd with
            | none => simp [Stickers.set_last_skipped, hp]
            | some ts =>
              simp only [hp] at h
              cases hq : datetime_from_timestamp ts with
                | none => simp [Stickers.set_last_skipped, hp, hq]
                | some d => rw [hq] at h; simp at h
          · simp only [h5, if_false, Bool.false_eq_true] at h ⊢
            by_cases h6 : kv.fst == Stickers.PLAY_COUNT_KEY
            · simp only [h6, if_true] at h ⊢
              cases hp : parse_i64 kv.snd with
              | none => simp [Stickers.set_play_count, hp]
              | some n => rw [hp] at h; simp at h
            · simp only [h6, if_false, Bool.false_eq_true] at h ⊢
              by_cases h7 : kv.fst == Stickers.SKIP_COUNT_KEY
              · simp only [h7, if_true] at h ⊢
                cases hp : parse_i64 kv.snd with
                | none => simp [Stickers.set_skip_count, hp]
                | some n => rw [hp] at h; simp at h
              · simp [h7]

/-- Claim C10: Stickers::from_mpd_kv is total on arbitrary key-value
input (the embedding needs no panic case); pairs with unrecognised keys
are ignored (dropping them changes nothing), and when every pair fails to
parse as the expected type of its key the result is the all-default
record (None for the optional fields, Sideways for like). -/
theorem from_mpd_kv_total_on_kv_input (kvs : List (String × String)) :
    Stickers.from_mpd_kv kvs =
      Stickers.from_mpd_kv (kvs.filter fun kv => sticker_key_known kv.fst) ∧
    ((∀ kv ∈ kvs, sticker_pair_effective kv = false) →
      Stickers.from_mpd_kv kvs = {}) := by
  constructor
  · exact foldl_apply_kv_filter_known kvs {}
  · intro hall
    unfold Stickers.from_mpd_kv
    induction kvs with
    | nil => rfl
    | cons kv rest ih =>
      have hkv : sticker_pair_effective kv = false := hall kv (by simp)
      simp only [List.foldl_cons, apply_kv_default kv hkv]
      exact ih fun x hx => hall x (by simp [hx])

theorem from_mpd_kv_total_on_kv_input_witness :
    Stickers.from_mpd_kv
      [("rating", "abc"), ("foo", "7"), ("lastPlayed", "99999999999999999999")] = {} ∧
    Stickers.from_mpd_kv
      [("rating", "abc"), ("foo", "7"), ("lastPlayed", "99999999999999999999")] =
      Stickers.from_mpd_kv
        ([("rating", "abc"), ("foo", "7"), ("lastPlayed", "99999999999999999999")].filter
          fun kv => sticker_key_known kv.fst) :=
  ⟨(from_mpd_kv_total_on_kv_input _).2 (by decide),
   (from_mpd_kv_total_on_kv_input _).1⟩

theorem cmp_options_nulls_last_none_some (cmp : α → α → StdOrdering) (v : α) :
    cmp_options_nulls_last cmp none (some v) = .gt ∧
    cmp_options_nulls_last cmp (some v) none = .lt ∧
    reverse_cmp_options_nulls_last cmp none (some v) = .gt ∧
    reverse_cmp_options_nulls_last cmp (some v) none = .lt := by
  refine ⟨rfl, rfl, rfl, rfl⟩

/-- Claim C6: for every ordering key other than Random, a record whose
field for that key is absent compares strictly after a record whose field
is present, in both the ascending and the descending variant; for Track
the negative no-track-number sentinel is remapped to i64::MAX and so
compares strictly after any genuine track number. -/
theorem comparator_nulls_last (o : Ordering) (a b : SongInfo × Stickers)
    (ho : o ≠ .Random) (ha : key_field_null o a) (hb : key_field_present o b) :
    build_comparator [o] a b = some .gt ∧ build_comparator [o] b a = some .lt := by
  cases o with
  | Random => exact absurd rfl ho
  | Track =>
    obtain ⟨hb0, hblt⟩ := hb
    have ha2 : a.1.track < 0 := ha
    have hnb : ¬ b.1.track < 0 := not_lt.mpr hb0
    constructor
    · simp only [build_comparator, cmp_by_key, ha2, if_true, hnb, if_false]
      have h1 : ¬ I64_MAX < b.1.track := not_lt.mpr (le_of_lt hblt)
      simp [cmpInt, h1, hblt]
    · simp only [build_comparator, cmp_by_key, ha2, if_true, hnb, if_false]
      simp [cmpInt, hblt]
  | AscAlbumTitle =>
    obtain ⟨v, hv⟩ := Option.isSome_iff_exists.mp hb
    have ha2 : a.1.album = none := ha
    simp [build_comparator, cmp_by_key, ha2, hv, cmp_options_nulls_last]
  | DescAlbumTitle =>
    obtain ⟨v, hv⟩ := Option.isSome_iff_exists.mp hb
    have ha2 : a.1.album = none := ha
    simp [build_comparator, cmp_by_key, ha2, hv, reverse_cmp_options_nulls_last]
  | AscReleaseDate =>
    obtain ⟨v, hv⟩ := Option.isSome_iff_exists.mp hb
    have ha2 : a.1.release_date = none := ha
    simp [build_comparator, cmp_by_key, ha2, hv, cmp_options_nulls_last]
  | DescReleaseDate =>
    obtain ⟨v, hv⟩ := Option.isSome_iff_exists.mp hb
    have ha2 : a.1.release_date = none := ha
    simp [build_comparator, cmp_by_key, ha2, hv, reverse_cmp_options_nulls_last]
  | AscArtistTag =>
    obtain ⟨v, hv⟩ := Option.isSome_iff_exists.mp hb
    have ha2 : a.1.artist_tag = none := ha
    simp [build_comparator, cmp_by_key, ha2, hv, cmp_options_nulls_last]
  | DescArtistTag =>
    obtain ⟨v, hv⟩ := Option.isSome_iff_exists.mp hb
    have ha2 : a.1.artist_tag = none := ha
    simp [build_comparator, cmp_by_key, ha2, hv, reverse_cmp_options_nulls_last]
  | AscRating =>
    obtain ⟨v, hv⟩ := Option.isSome_iff_exists.mp hb
    have ha2 : a.2.rating = none := ha
    simp [build_comparator, cmp_by_key, ha2, hv, cmp_options_nulls_last]
  | DescRating =>
    obtain ⟨v, hv⟩ := Option.isSome_iff_exists.mp hb
    have ha2 : a.2.rating = none := ha
    simp [build_comparator, cmp_by_key, ha2, hv, reverse_cmp_options_nulls_last]
  | AscLastModified =>
    obtain ⟨v, hv⟩ := Option.isSome_iff_exists.mp hb
    have ha2 : a.1.last_modified = none := ha
    simp [build_comparator, cmp_by_key, ha2, hv, cmp_options_nulls_last]
  | DescLastModified =>
    obtain ⟨v, hv⟩ := Option.isSome_iff_exists.mp hb
    have ha2 : a.1.last_modified = none := ha
    simp [build_comparator, cmp_by_key, ha2, hv, reverse_cmp_options_nulls_last]
  | AscPlayCount =>
    obtain ⟨v, hv⟩ := Option.isSome_iff_exists.mp hb
    have ha2 : a.2.play_count = none := ha
    simp [build_comparator, cmp_by_key, ha2, hv, cmp_options_nulls_last]
  | DescPlayCount =>
    obtain ⟨v, hv⟩ := Option.isSome_iff_exists.mp hb
    have ha2 : a.2.play_count = none := ha
    simp [build_comparator, cmp_by_key, ha2, hv, reverse_cmp_options_nulls_last]
  | AscSkipCount =>
    obtain ⟨v, hv⟩ := Option.isSome_iff_exists.mp hb
    have ha2 : a.2.skip_count = none := ha
    simp [build_comparator, cmp_by_key, ha2, hv, cmp_options_nulls_last]
  | DescSkipCount =>
    obtain ⟨v, hv⟩ := Option.isSome_iff_exists.mp hb
    have ha2 : a.2.skip_count = none := ha
    simp [build_comparator, cmp_by_key, ha2, hv, reverse_cmp_options_nulls_last]

theorem comparator_nulls_last_witness :
    build_comparator [Ordering.DescRating]
      ({ uri := "x" }, {}) ({ uri := "y" }, { rating := some 5 }) = some .gt ∧
    build_comparator [Ordering.DescRating]
      ({ uri := "y" }, { rating := some 5 }) ({ uri := "x" }, {}) = some .lt :=
  comparator_nulls_last Ordering.DescRating _ _ (by decide) rfl rfl

theorem cmp_by_key_isSome (o : Ordering) (ho : o ≠ .Random)
    (a b : SongInfo × Stickers) : (cmp_by_key o a b).isSome := by
  cases o <;> first
    | exact absurd rfl ho
    | simp [cmp_by_key]

theorem build_comparator_total (ords : List Ordering)
    (h : Ordering.Random ∉ ords) (a b : SongInfo × Stickers) :
    (build_comparator ords a b).isSome := by
  induction ords with
  | nil => simp [build_comparator]
  | cons o rest ih =>
    have ho : o ≠ .Random := fun he => h (he ▸ List.mem_cons_self o rest)
    have hrest : Ordering.Random ∉ rest := fun hm => h (List.mem_cons_of_mem o hm)
    obtain ⟨r, hr⟩ := Option.isSome_iff_exists.mp (cmp_by_key_isSome o ho a b)
    simp only [build_comparator, hr]
    by_cases he : r = .eq
    · simp [he, ih hrest]
    · simp [he]

/-- Claim C7: the Random arm of the compiled comparator is never
executed. The caller that special-cases Random lives in
library/controller.rs, which is not under src/; library_comparator_for
models it from the spec (shuffle instead of sort when Random is present),
and under that model every comparator it hands to the dynamic-playlist
sort is total: its evaluation never reaches the unreachable Random arm
(modelled as none). -/
theorem random_branch_unreachable (dp : DynamicPlaylist)
    (f : (SongInfo × Stickers) → (SongInfo × Stickers) → Option StdOrdering)
    (hf : library_comparator_for dp = some f) (a b : SongInfo × Stickers) :
    (f a b).isSome := by
  unfold library_comparator_for at hf
  by_cases hc : dp.ordering.contains Ordering.Random
  · rw [if_pos hc] at hf
    exact Option.noConfusion hf
  · rw [if_neg hc] at hf
    obtain rfl := Option.some.inj hf
    refine build_comparator_total _ ?_ a b
    intro hm
    exact hc (List.elem_iff.mpr hm)

theorem random_branch_unreachable_witness :
    (build_comparator [Ordering.AscRating] ({ uri := "x" }, {}) ({ uri := "y" }, {})).isSome ∧
    library_comparator_for { name := "w", rules := [], ordering := [Ordering.AscRating] } =
      some (build_comparator [Ordering.AscRating]) :=
  ⟨random_branch_unreachable
      { name := "w", rules := [], ordering := [Ordering.AscRating] } _ rfl _ _,
   rfl⟩

theorem fetch_songs_by_query_loop_all (srv : ServerState) (q : Query)
    (hlen : (srv.queryResults q).length ≤ FETCH_LIMIT) :
    ∀ fuel curr : Nat, FETCH_LIMIT ≤ curr + fuel * BATCH_SIZE →
      fetch_songs_by_query_loop srv q fuel curr = (srv.queryResults q).drop curr := by
  intro fuel
  induction fuel with
  | zero =>
    intro curr h
    simp only [Nat.zero_mul, Nat.add_zero] at h
    have hd : (srv.queryResults q).length ≤ curr := le_trans hlen h
    simp [fetch_songs_by_query_loop, List.drop_eq_nil_of_le hd]
  | succ fuel ih =>
    intro curr h
    by_cases hc : curr < FETCH_LIMIT
    · rw [fetch_songs_by_query_loop]
      simp only [if_pos hc]
      by_cases he : (((srv.queryResults q).drop curr).take BATCH_SIZE).isEmpty
      · rw [if_pos he]
        rw [List.isEmpty_iff, List.take_eq_nil_iff] at he
        rcases he with he | he
        · exact absurd he (by norm_num [BATCH_SIZE])
        · exact he.symm
      · rw [if_neg he]
        rw [ih (curr + BATCH_SIZE) (by
          have : curr + (fuel + 1) * BATCH_SIZE = curr + BATCH_SIZE + fuel * BATCH_SIZE := by ring
          omega)]
        rw [show curr + BATCH_SIZE = curr + BATCH_SIZE from rfl]
        rw [← List.drop_drop BATCH_SIZE curr]
        exact List.take_append_drop BATCH_SIZE ((srv.queryResults q).drop curr)
    · rw [fetch_songs_by_query_loop]
      simp only [if_neg hc]
      have hd : (srv.queryResults q).length ≤ curr := le_trans hlen (le_of_not_lt hc)
      exact (List.drop_eq_nil_of_le hd).symm

theorem fetch_songs_by_query_all (srv : ServerState) (q : Query)
    (hlen : (srv.queryResults q).length ≤ FETCH_LIMIT) :
    fetch_songs_by_query srv q = srv.queryResults q := by
  unfold fetch_songs_by_query
  rw [fetch_songs_by_query_loop_all srv q hlen FETCH_LIMIT 0
    (by norm_num [FETCH_LIMIT, BATCH_SIZE])]
  rfl

theorem parse_i64_min_roundtrip :
    parse_signed (toString I64_MIN).data = some I64_MIN := by decide

theorem resolve_sticker_clauses_spec (srv : ServerState) (now : Int) :
    ∀ (cs : List StickerClause) (res : List String),
      (∀ c ∈ cs, (clause_fetch srv now c).isSome) →
      ∃ out trips, resolve_sticker_clauses srv now cs res = some (out, trips) ∧
        ∀ u, u ∈ out ↔ (u ∈ res ∧ ∀ c ∈ cs, u ∈ clause_match_uris srv now c) := by
  intro cs
  induction cs with
  | nil =>
    intro res _
    exact ⟨res, [], rfl, by simp⟩
  | cons c rest ih =>
    intro res hok
    obtain ⟨fetched, hf⟩ := Option.isSome_iff_exists.mp (hok c (List.mem_cons_self c rest))
    have hmatch : clause_match_uris srv now c = fetched.1 := by
      simp [clause_match_uris, hf]
    by_cases hempty : (res.filter fun elem => fetched.1.contains elem).isEmpty
    · refine ⟨[], fetched.2 :: rest.map fun _ => 0, ?_, ?_⟩
      · simp only [resolve_sticker_clauses, hf]
        rw [if_pos hempty]
      · intro u
        simp only [List.not_mem_nil, false_iff]
        rintro ⟨hu, hall⟩
        have humc : u ∈ fetched.1 := hmatch ▸ hall c (List.mem_cons_self c rest)
        have hu2 : u ∈ res.filter fun elem => fetched.1.contains elem :=
          List.mem_filter.mpr ⟨hu, List.elem_iff.mpr humc⟩
        rw [List.isEmpty_iff.mp hempty] at hu2
        exact List.not_mem_nil u hu2
    · obtain ⟨out, trips, heq, hiff⟩ :=
        ih (res.filter fun elem => fetched.1.contains elem)
          (fun x hx => hok x (List.mem_cons_of_mem c hx))
      refine ⟨out, fetched.2 :: trips, ?_, ?_⟩
      · simp only [resolve_sticker_clauses, hf]
        rw [if_neg hempty, heq]
        rfl
      · intro u
        rw [hiff u]
        constructor
        · rintro ⟨hu2, hall⟩
          obtain ⟨hu, hcont⟩ := List.mem_filter.mp hu2
          refine ⟨hu, ?_⟩
          intro x hx
          rcases List.mem_cons.mp hx with hx | hx
          · subst hx
            rw [hmatch]
            exact List.elem_iff.mp hcont
          · exact hall x hx
        · rintro ⟨hu, hall⟩
          refine ⟨List.mem_filter.mpr ⟨hu, ?_⟩,
            fun x hx => hall x (List.mem_cons_of_mem c hx)⟩
          exact List.elem_iff.mpr (hmatch ▸ hall c (List.mem_cons_self c rest))

/-- Claim C1: resolving a rule list yields exactly the set-intersection of
the seed set of the single combined attribute query with every sticker
clause's independently-computed match set; the resulting set does not
depend on the order of the sticker clauses; and when no query clauses
exist the substituted trivially-true AddedSince i64::MIN clause seeds
from the whole library. Hypothesis: every sticker clause is fetchable
(its lastPlayed or lastSkipped right-hand side, if any, parses, so the
resolution does not panic). -/
theorem resolve_rules_intersection (srv : ServerState) (now : Int) (rules : List Rule)
    (hok : ∀ c ∈ (partition_rules now rules).2, (clause_fetch srv now c).isSome) :
    ∃ out trips, resolve_dynamic_playlist_rules srv now rules = some (out, trips) ∧
      (∀ u, u ∈ out ↔ (u ∈ seed_uris srv now rules ∧
        ∀ c ∈ (partition_rules now rules).2, u ∈ clause_match_uris srv now c)) ∧
      (∀ rules2 : List Rule,
        (partition_rules now rules2).1 = (partition_rules now rules).1 →
        ((partition_rules now rules2).2).Perm ((partition_rules now rules).2) →
        ∃ out2 trips2, resolve_dynamic_playlist_rules srv now rules2 = some (out2, trips2) ∧
          ∀ u, u ∈ out2 ↔ u ∈ out) ∧
      ((partition_rules now rules).1 = [] →
        srv.library.length ≤ FETCH_LIMIT →
        (∀ s ∈ srv.library, I64_MIN ≤ s.added) →
        ∀ u, u ∈ seed_uris srv now rules ↔ u ∈ srv.library.map fun s => s.info.uri) := by
  obtain ⟨out, trips, heq, hiff⟩ :=
    resolve_sticker_clauses_spec srv now (partition_rules now rules).2
      (seed_uris srv now rules).dedup hok
  refine ⟨out, trips, heq, ?_, ?_, ?_⟩
  · intro u
    rw [hiff u, List.mem_dedup]
  · intro rules2 hq hperm
    have hok2 : ∀ c ∈ (partition_rules now rules2).2, (clause_fetch srv now c).isSome :=
      fun c hc => hok c (hperm.mem_iff.mp hc)
    obtain ⟨out2, trips2, heq2, hiff2⟩ :=
      resolve_sticker_clauses_spec srv now (partition_rules now rules2).2
        (seed_uris srv now rules2).dedup hok2
    refine ⟨out2, trips2, heq2, ?_⟩
    intro u
    rw [hiff2 u, hiff u, List.mem_dedup, List.mem_dedup]
    have hseed : seed_uris srv now rules2 = seed_uris srv now rules := by
      unfold seed_uris
      rw [hq]
    rw [hseed]
    constructor
    · rintro ⟨hu, hall⟩
      exact ⟨hu, fun c hc => hall c (hperm.mem_iff.mpr hc)⟩
    · rintro ⟨hu, hall⟩
      exact ⟨hu, fun c hc => hall c (hperm.mem_iff.mp hc)⟩
  · intro hq hlen hadded u
    unfold seed_uris
    rw [hq]
    have hquery : build_combined_query [] = Query.and [] .AddedSince (toString I64_MIN) := rfl
    rw [hquery]
    have hfilter : srv.queryResults (Query.and [] .AddedSince (toString I64_MIN)) =
        srv.library := by
      unfold ServerState.queryResults
      apply List.filter_eq_self.mpr
      intro s hs
      have hone : matches_filter s ⟨.AddedSince, .Equals, toString I64_MIN⟩ = true := by
        simp only [matches_filter, parse_i64_min_roundtrip]
        exact decide_eq_true (hadded s hs)
      simp [matches_query, Query.and, hone]
    have hall : fetch_songs_by_query srv (Query.and [] .AddedSince (toString I64_MIN)) =
        srv.library := by
      rw [fetch_songs_by_query_all srv _ (by rw [hfilter]; exact hlen), hfilter]
    rw [hall]

theorem resolve_rules_intersection_witness :
    ∃ out trips, resolve_dynamic_playlist_rules srvW 0 rulesW = some (out, trips) ∧
      (∀ u, u ∈ out ↔ (u ∈ seed_uris srvW 0 rulesW ∧
        ∀ c ∈ (partition_rules 0 rulesW).2, u ∈ clause_match_uris srvW 0 c)) ∧
      (∀ rules2 : List Rule,
        (partition_rules 0 rules2).1 = (partition_rules 0 rulesW).1 →
        ((partition_rules 0 rules2).2).Perm ((partition_rules 0 rulesW).2) →
        ∃ out2 trips2, resolve_dynamic_playlist_rules srvW 0 rules2 = some (out2, trips2) ∧
          ∀ u, u ∈ out2 ↔ u ∈ out) ∧
      ((partition_rules 0 rulesW).1 = [] →
        srvW.library.length ≤ FETCH_LIMIT →
        (∀ s ∈ srvW.library, I64_MIN ≤ s.added) →
        ∀ u, u ∈ seed_uris srvW 0 rulesW ↔ u ∈ srvW.library.map fun s => s.info.uri) :=
  resolve_rules_intersection srvW 0 rulesW (by decide)

theorem resolve_sticker_clauses_early (srv : ServerState) (now : Int) :
    ∀ (pre : List StickerClause) (c : StickerClause) (post : List StickerClause)
      (res : List String),
      (∀ x ∈ pre ++ [c], (clause_fetch srv now x).isSome) →
      running_set srv now res (pre ++ [c]) = [] →
      ∃ trips, resolve_sticker_clauses srv now (pre ++ c :: post) res = some ([], trips) ∧
        trips.length = pre.length + 1 + post.length ∧
        ∀ t ∈ trips.drop (pre.length + 1), t = 0 := by
  intro pre
  induction pre with
  | nil =>
    intro c post res hok hempty
    obtain ⟨fetched, hf⟩ := Option.isSome_iff_exists.mp (hok c (by simp))
    have hmatch : clause_match_uris srv now c = fetched.1 := by
      simp [clause_match_uris, hf]
    have hres2 : (res.filter fun elem => fetched.1.contains elem) = [] := by
      have h2 := hempty
      unfold running_set at h2
      rw [List.nil_append, List.foldl_cons, List.foldl_nil, hmatch] at h2
      exact h2
    refine ⟨fetched.2 :: post.map fun _ => 0, ?_, by simp; omega, ?_⟩
    · rw [List.nil_append]
      simp only [resolve_sticker_clauses, hf]
      rw [if_pos (List.isEmpty_iff.mpr hres2)]
    · intro t ht
      simp only [List.length_nil, Nat.zero_add, List.drop_succ_cons, List.drop_zero] at ht
      obtain ⟨x, _, hx⟩ := List.mem_map.mp ht
      exact hx.symm
  | cons p pre2 ih =>
    intro c post res hok hempty
    obtain ⟨fetchedp, hfp⟩ := Option.isSome_iff_exists.mp (hok p (by simp))
    have hmatchp : clause_match_uris srv now p = fetchedp.1 := by
      simp [clause_match_uris, hfp]
    by_cases hemp2 : (res.filter fun elem => fetchedp.1.contains elem).isEmpty
    · refine ⟨fetchedp.2 :: (pre2 ++ c :: post).map fun _ => 0, ?_, ?_, ?_⟩
      · rw [List.cons_append]
        simp only [resolve_sticker_clauses, hfp]
        rw [if_pos hemp2]
      · simp only [List.length_cons, List.length_map, List.length_append, List.length_cons]
        omega
      · intro t ht
        have ht2 : t ∈ ((pre2 ++ c :: post).map fun _ => 0) :=
          List.mem_of_mem_drop (by
            simpa only [List.length_cons, List.drop_succ_cons] using ht)
        obtain ⟨x, _, hx⟩ := List.mem_map.mp ht2
        exact hx.symm
    · have hemps : running_set srv now
          (res.filter fun elem => fetchedp.1.contains elem) (pre2 ++ [c]) = [] := by
        have hstep : running_set srv now res ((p :: pre2) ++ [c]) =
            running_set srv now (res.filter fun elem => fetchedp.1.contains elem)
              (pre2 ++ [c]) := by
          unfold running_set
          rw [List.cons_append, List.foldl_cons, hmatchp]
        rw [← hstep]
        exact hempty
      obtain ⟨trips, heq, hlen, hzero⟩ :=
        ih c post (res.filter fun elem => fetchedp.1.contains elem)
          (fun x hx => hok x (by
            rcases List.mem_append.mp hx with hx | hx
            · exact List.mem_append.mpr (.inl (List.mem_cons_of_mem p hx))
            · exact List.mem_append.mpr (.inr hx)))
          hemps
      refine ⟨fetchedp.2 :: trips, ?_, ?_, ?_⟩
      · rw [List.cons_append]
        simp only [resolve_sticker_clauses, hfp]
        rw [if_neg hemp2, heq]
        rfl
      · simp only [List.length_cons, hlen]
        omega
      · intro t ht
        refine hzero t ?_
        simpa only [List.length_cons, List.drop_succ_cons] using ht

/-- Claim C3: during one resolution, once the running candidate set is
empty after intersecting some sticker clause, the resolver returns an
empty result and issues zero find_sticker_op round-trips for every
remaining sticker clause (their per-clause trip counts are all 0). -/
theorem resolve_early_termination (srv : ServerState) (now : Int) (rules : List Rule)
    (pre : List StickerClause) (c : StickerClause) (post : List StickerClause)
    (hsplit : (partition_rules now rules).2 = pre ++ c :: post)
    (hok : ∀ x ∈ pre ++ [c], (clause_fetch srv now x).isSome)
    (hempty : running_set srv now (seed_uris srv now rules).dedup (pre ++ [c]) = []) :
    ∃ trips, resolve_dynamic_playlist_rules srv now rules = some ([], trips) ∧
      trips.length = pre.length + 1 + post.length ∧
      ∀ t ∈ trips.drop (pre.length + 1), t = 0 := by
  obtain ⟨trips, heq, hlen, hz⟩ :=
    resolve_sticker_clauses_early srv now pre c post
      (seed_uris srv now rules).dedup hok hempty
  refine ⟨trips, ?_, hlen, hz⟩
  show resolve_sticker_clauses srv now (partition_rules now rules).2
    (seed_uris srv now rules).dedup = some ([], trips)
  rw [hsplit]
  exact heq

theorem resolve_early_termination_witness :
    ∃ trips, resolve_dynamic_playlist_rules srvW 0 rulesEmptyFirst = some ([], trips) ∧
      trips.length = ([] : List StickerClause).length + 1 +
        [(⟨.Song, "rating", .IntGreaterThan, "5"⟩ : StickerClause)].length ∧
      ∀ t ∈ trips.drop (([] : List StickerClause).length + 1), t = 0 :=
  resolve_early_termination srvW 0 rulesEmptyFirst []
    ⟨.Song, "playCount", .IntGreaterThan, "3"⟩
    [⟨.Song, "rating", .IntGreaterThan, "5"⟩]
    (by decide) (by decide) (by decide)

set_option maxRecDepth 400000 in
/-- Claim C2 (code bug): for a Song-object sticker clause whose endpoint
reports 130 matches, the paging loop requests 128-record windows but
advances the window start by 256 per round-trip (the increment runs both
inside the Song arm and after the match), so records 128 and 129 are
skipped: only the first 128 URIs reach the clause match set. -/
theorem fetch_uris_by_sticker_song_skips_window :
    (fetch_uris_by_sticker srv130 .Song "rating" .IntGreaterThan "5" none).1.length = 128 ∧
    "u128" ∈ srv130.stickerFind "song" "" "rating" "gt" "5" ∧
    "u128" ∉ (fetch_uris_by_sticker srv130 .Song "rating" .IntGreaterThan "5" none).1 := by
  decide

/-- Claim C4 (code bug): renaming the stored playlist A to B succeeds and
replaces the row, but the image-key UPDATE of insert_dynamic_playlist
binds its two parameters reversed (SET key = old-name key WHERE key =
new-name key): the registry entry keyed by the old name stays under the
old name, and an entry already keyed by the new name is clobbered back to
the old name, contradicting the migrate-to-new-name comment above the
statement and the spec. -/
theorem insert_dynamic_playlist_image_key_not_migrated :
    (insert_dynamic_playlist stA dpB (some "A")).1 = .ok () ∧
    (insert_dynamic_playlist stA dpB (some "A")).2.queries.map QueryRow.name = ["B"] ∧
    (insert_dynamic_playlist stA dpB (some "A")).2.images =
      [(dp_image_key "A", "cover.png")] ∧
    (insert_dynamic_playlist stA2 dpB (some "A")).2.images =
      [(dp_image_key "A", "other.png")] ∧
    dp_image_key "A" ≠ dp_image_key "B" := by
  refine ⟨rfl, rfl, rfl, rfl, by decide⟩

/-- Claim C5: inserting a dynamic playlist without an overwrite target
while a row with the same name exists rolls the transaction back: the
call returns KeyAlreadyExists and the returned state is exactly the prior
state; and the duplicate check runs against the transaction state itself,
so stored playlist names remain globally unique across any such call. -/
theorem insert_dynamic_playlist_unique (st : DbState) (dp : DynamicPlaylist) :
    ((∃ r ∈ st.queries, r.name = dp.name) →
      insert_dynamic_playlist st dp none = (.error .KeyAlreadyExists, st)) ∧
    ((st.queries.map QueryRow.name).Nodup →
      ((insert_dynamic_playlist st dp none).2.queries.map QueryRow.name).Nodup) := by
  have hbranch : ∀ h : (∃ r ∈ st.queries, r.name = dp.name),
      insert_dynamic_playlist st dp none = (.error .KeyAlreadyExists, st) := by
    rintro ⟨r, hr, hname⟩
    have hpos : 0 < (st.queries.filter fun (r : QueryRow) => r.name = dp.name).length := by
      apply List.length_pos.mpr
      intro hnil
      have hmem : r ∈ st.queries.filter fun (r : QueryRow) => r.name = dp.name :=
        List.mem_filter.mpr ⟨hr, decide_eq_true hname⟩
      rw [hnil] at hmem
      exact List.not_mem_nil r hmem
    unfold insert_dynamic_playlist
    rw [if_pos hpos]
  constructor
  · exact hbranch
  · intro hnd
    by_cases hex : ∃ r ∈ st.queries, r.name = dp.name
    · rw [hbranch hex]
      exact hnd
    · have hzero : (st.queries.filter fun (r : QueryRow) => r.name = dp.name) = [] := by
        apply List.filter_eq_nil_iff.mpr
        intro r hr
        simp only [decide_eq_true_eq]
        exact fun h => hex ⟨r, hr, h⟩
      unfold insert_dynamic_playlist
      rw [if_neg (by rw [hzero]; simp)]
      simp only [List.map_append, List.map_cons, List.map_nil]
      refine List.Nodup.append hnd (List.nodup_singleton _) ?_
      intro a ha hb
      rw [List.mem_singleton] at hb
      subst hb
      obtain ⟨r, hr, hname⟩ := List.mem_map.mp ha
      exact hex ⟨r, hr, hname⟩

theorem insert_dynamic_playlist_unique_witness :
    insert_dynamic_playlist stA { name := "A", rules := [], ordering := [] } none =
      (.error .KeyAlreadyExists, stA) ∧
    ((insert_dynamic_playlist stA dpB none).2.queries.map QueryRow.name).Nodup :=
  ⟨(insert_dynamic_playlist_unique stA { name := "A", rules := [], ordering := [] }).1
      (by decide),
   (insert_dynamic_playlist_unique stA dpB).2 (by decide)⟩

/-- Claim C9 (counterexample): looking up a stored row whose bson blob
fails to decode does not return a serialization error value: the row
mapper unwraps the decode and the call panics (modelled as none), so the
claim that decode failures are surfaced as errors rather than aborting is
false on this input. -/
theorem get_dynamic_playlist_info_decode_panics :
    get_dynamic_playlist_info st_bad "broken" = none := rfl

theorem AutoRefresh.from_str_to_str (a : AutoRefresh) :
    AutoRefresh.from_str a.to_str = some a := by
  cases a <;> rfl

/-- Claim C9 (amended): get_dynamic_playlist_info returns Ok none (not an
error) when no stored row has the name; and a row written by a successful
insert_dynamic_playlist decodes back to exactly the inserted playlist
(Ok (some dp)), the in-range timestamp hypotheses reflecting the stored
column values. Decode failures of the stored blob or the auto_refresh
marker, however, panic instead of surfacing a serialization error (see
the counterexample). -/
theorem get_dynamic_playlist_info_amended (st : DbState) (name : String)
    (dp : DynamicPlaylist) :
    (st.queries.find? (fun r => r.name == name) = none →
      get_dynamic_playlist_info st name = some (.ok none)) ∧
    (∀ st2 : DbState, insert_dynamic_playlist st dp none = (.ok (), st2) →
      dp.last_queued.bind offsetdatetime_from_unix = dp.last_queued →
      dp.last_refresh.bind offsetdatetime_from_unix = dp.last_refresh →
      get_dynamic_playlist_info st2 dp.name = some (.ok (some dp))) := by
  constructor
  · intro h
    unfold get_dynamic_playlist_info
    rw [h]
  · intro st2 hins hq hr
    by_cases hpos : 0 < (st.queries.filter fun (r : QueryRow) => r.name = dp.name).length
    · unfold insert_dynamic_playlist at hins
      rw [if_pos hpos] at hins
      exact absurd (congrArg Prod.fst hins) (by simp)
    · unfold insert_dynamic_playlist at hins
      rw [if_neg hpos] at hins
      have hst2 := (Prod.mk.injEq _ _ _ _).mp hins
      obtain ⟨-, hst2⟩ := hst2
      subst hst2
      have hnone : st.queries.find? (fun r => r.name == dp.name) = none := by
        rw [List.find?_eq_none]
        intro r hrq
        intro hb
        apply hpos
        apply List.length_pos.mpr
        intro hnil
        have hmem : r ∈ st.queries.filter fun (r : QueryRow) => r.name = dp.name :=
          List.mem_filter.mpr ⟨hrq, decide_eq_true (beq_iff_eq.mp hb)⟩
        rw [hnil] at hmem
        exact List.not_mem_nil r hmem
      unfold get_dynamic_playlist_info
      rw [List.find?_append, hnone, Option.none_or]
      simp only [List.find?, beq_self_eq_true]
      simp only [decode_blob, AutoRefresh.from_str_to_str, hq, hr]

theorem get_dynamic_playlist_info_amended_witness :
    get_dynamic_playlist_info { queries := [] } "nope" = some (.ok none) ∧
    get_dynamic_playlist_info
      (insert_dynamic_playlist { queries := [] } dpB none).2 dpB.name =
      some (.ok (some dpB)) :=
  ⟨(get_dynamic_playlist_info_amended { queries := [] } "nope" dpB).1 rfl,
   (get_dynamic_playlist_info_amended { queries := [] } dpB.name dpB).2
      (insert_dynamic_playlist { queries := [] } dpB none).2 rfl rfl rfl⟩

theorem batch_loop_batches_nonempty (songs : List SongInfo) :
    ∀ (fuel curr : Nat), ∀ b ∈ batch_loop songs fuel curr, b ≠ [] := by
  intro fuel
  induction fuel with
  | zero =>
    intro curr b hb
    simp [batch_loop] at hb
  | succ fuel ih =>
    intro curr b hb
    simp only [batch_loop] at hb
    by_cases hc : curr < songs.length
    · rw [if_pos hc] at hb
      rcases List.mem_cons.mp hb with hb | hb
      · subst hb
        intro hnil
        rw [List.take_eq_nil_iff] at hnil
        rcases hnil with hnil | hnil
        · have : curr < min (curr + BATCH_SIZE) songs.length := by
            simp only [lt_min_iff]
            exact ⟨by norm_num [BATCH_SIZE], hc⟩
          omega
        · rw [List.drop_eq_nil_iff] at hnil
          omega
      · exact ih _ b hb
    · rw [if_neg hc] at hb
      exact absurd hb (List.not_mem_nil b)

theorem mapM_unwrap_stickers (raw : List (SongInfo × Option Stickers))
    (h : ∀ t ∈ raw, t.2.isSome) :
    ∃ ss : List (SongInfo × Stickers),
      raw.mapM (fun t => t.2.map fun st => (t.1, st)) = some ss ∧
      ss.length = raw.length := by
  induction raw with
  | nil => exact ⟨[], rfl, rfl⟩
  | cons t ts ih =>
    obtain ⟨st, hst⟩ := Option.isSome_iff_exists.mp (h t (List.mem_cons_self t ts))
    obtain ⟨ss, hss, hlen⟩ := ih fun x hx => h x (List.mem_cons_of_mem t hx)
    refine ⟨(t.1, st) :: ss, ?_, by simp [hlen]⟩
    rw [List.mapM_cons, hst, hss]
    rfl

theorem insert_cmp_total (cmp : α → α → Option StdOrdering)
    (htot : ∀ a b, (cmp a b).isSome) (a : α) :
    ∀ l : List α, ∃ l2, insert_cmp cmp a l = some l2 ∧ l2.length = l.length + 1 := by
  intro l
  induction l with
  | nil => exact ⟨[a], rfl, rfl⟩
  | cons b bs ih =>
    obtain ⟨r, hr⟩ := Option.isSome_iff_exists.mp (htot a b)
    obtain ⟨l2, hl2, hlen⟩ := ih
    cases r with
    | gt =>
      refine ⟨b :: l2, ?_, by simp [hlen]⟩
      simp only [insert_cmp, hr, hl2]
      rfl
    | lt =>
      refine ⟨a :: b :: bs, ?_, by simp⟩
      simp only [insert_cmp, hr]
    | eq =>
      refine ⟨a :: b :: bs, ?_, by simp⟩
      simp only [insert_cmp, hr]

theorem sort_by_cmp_total (cmp : α → α → Option StdOrdering)
    (htot : ∀ a b, (cmp a b).isSome) :
    ∀ l : List α, ∃ l2, sort_by_cmp cmp l = some l2 ∧ l2.length = l.length := by
  intro l
  induction l with
  | nil => exact ⟨[], rfl, rfl⟩
  | cons a as_ ih =>
    obtain ⟨l2, hl2, hlen⟩ := ih
    obtain ⟨l3, hl3, hlen3⟩ := insert_cmp_total cmp htot a l2
    refine ⟨l3, ?_, by simp [hlen3, hlen]⟩
    simp only [sort_by_cmp, hl2, Option.some_bind, hl3]

/-- Claim C8 (amended): whenever the tag-clearing call succeeds, the
resolution does not panic, tag re-enabling succeeds, the ordering list
contains no Random key (so the comparator cannot panic inside sort_by),
and hydration returns Ok with every hydrated song carrying its sticker
bag, fetch_dynamic_playlist emits at least one message, the empty
sentinel batch is the last message, every preceding batch is non-empty,
and an empty hydrated result yields exactly the one sentinel message; the
cached-serve path (which never sorts) behaves the same whenever its
hydration succeeds. (When hydration fails, no message at all is emitted —
see the counterexample — which is why the original claim fails; a
comparator panic on a Random-containing ordering likewise aborts with
nothing emitted.) -/
theorem fetch_dynamic_playlist_sentinel (c : BgClient) (dp : DynamicPlaylist)
    (hclear : c.tagtypesClearOk = true)
    (henable : c.tagtypesEnableOk = true)
    (hrand : Ordering.Random ∉ dp.ordering)
    (resolved : List String × List Nat)
    (hres : resolve_dynamic_playlist_rules c.srv c.now dp.rules = some resolved)
    (raw : List (SongInfo × Option Stickers))
    (hhyd : fetch_songs_by_uri c resolved.1 true = .ok raw)
    (hstick : ∀ t ∈ raw, t.2.isSome) :
    ((fetch_dynamic_playlist c dp).msgs ≠ [] ∧
     (fetch_dynamic_playlist c dp).msgs.getLast? = some [] ∧
     (∀ b ∈ (fetch_dynamic_playlist c dp).msgs.dropLast, b ≠ []) ∧
     (raw = [] → (fetch_dynamic_playlist c dp).msgs = [[]])) ∧
    (∀ (st : DbState) (nm : String) (hydrated : List (SongInfo × Option Stickers)),
      fetch_songs_by_uri c (get_cached_dynamic_playlist_results st nm) false = .ok hydrated →
      (fetch_dynamic_playlist_cached c st nm ≠ [] ∧
       (fetch_dynamic_playlist_cached c st nm).getLast? = some [] ∧
       (∀ b ∈ (fetch_dynamic_playlist_cached c st nm).dropLast, b ≠ []) ∧
       (hydrated = [] → fetch_dynamic_playlist_cached c st nm = [[]]))) := by
  obtain ⟨ss, hss, hlen⟩ := mapM_unwrap_stickers raw hstick
  have key : ∃ msgs0, (fetch_dynamic_playlist c dp).msgs = msgs0 ++ [[]] ∧
      (∀ b ∈ msgs0, b ≠ []) ∧ (ss.isEmpty → msgs0 = []) := by
    unfold fetch_dynamic_playlist
    rw [if_pos hclear, hres]
    simp only [henable, not_true_eq_false, if_false, Bool.false_eq_true]
    rw [hhyd]
    simp only [hss]
    by_cases he : ss.isEmpty
    · rw [if_pos he]
      exact ⟨[], rfl, by simp, fun _ => rfl⟩
    · rw [if_neg he]
      have htot : ∀ a b : SongInfo × Stickers,
          (build_comparator dp.ordering a b).isSome :=
        fun a b => build_comparator_total dp.ordering hrand a b
      obtain ⟨sorted, hsorted, -⟩ := sort_by_cmp_total _ htot ss
      rw [hsorted]
      refine ⟨send_batches ((match dp.limit with
        | some l => sorted.take l
        | none => sorted).map fun t : SongInfo × Stickers => t.1), rfl, ?_,
        fun hc => absurd hc he⟩
      intro b hb
      exact batch_loop_batches_nonempty _ _ _ b hb
  obtain ⟨msgs0, hm, hne, hempt⟩ := key
  constructor
  · refine ⟨?_, ?_, ?_, ?_⟩
    · rw [hm]
      simp
    · rw [hm]
      exact List.getLast?_concat _
    · rw [hm, List.dropLast_concat]
      exact hne
    · intro hraw
      subst hraw
      have h0 : ss = [] := by simpa using hlen
      rw [hm, hempt (List.isEmpty_iff.mpr h0)]
      rfl
  · intro st nm hydrated hcache
    have hcached : fetch_dynamic_playlist_cached c st nm =
        send_batches (hydrated.map fun t => t.1) ++ [[]] := by
      unfold fetch_dynamic_playlist_cached
      rw [hcache]
    refine ⟨?_, ?_, ?_, ?_⟩
    · rw [hcached]
      simp
    · rw [hcached]
      exact List.getLast?_concat _
    · rw [hcached, List.dropLast_concat]
      intro b hb
      exact batch_loop_batches_nonempty _ _ _ b hb
    · intro hh
      subst hh
      rw [hcached]
      rfl

/-- Claim C8 (counterexample): a client whose hydration round-trips fail,
resolving a playlist whose seed is the one-song library: the if-let on
the hydration result fails, so the resolution emits no message at all —
in particular the empty sentinel batch is never emitted, refuting the
claim that it is always emitted, including when hydration fails. -/
theorem fetch_dynamic_playlist_no_sentinel_on_hydration_error :
    fetch_dynamic_playlist err_client dp_plain = ⟨[], false⟩ := rfl

theorem fetch_dynamic_playlist_sentinel_witness :
    ((fetch_dynamic_playlist ok_client dp_plain).msgs ≠ [] ∧
     (fetch_dynamic_playlist ok_client dp_plain).msgs.getLast? = some [] ∧
     (∀ b ∈ (fetch_dynamic_playlist ok_client dp_plain).msgs.dropLast, b ≠ []) ∧
     ([(({ uri := "a" } : SongInfo), some ({} : Stickers))] = [] →
       (fetch_dynamic_playlist ok_client dp_plain).msgs = [[]])) ∧
    (∀ (st : DbState) (nm : String) (hydrated : List (SongInfo × Option Stickers)),
      fetch_songs_by_uri ok_client (get_cached_dynamic_playlist_results st nm) false =
        .ok hydrated →
      (fetch_dynamic_playlist_cached ok_client st nm ≠ [] ∧
       (fetch_dynamic_playlist_cached ok_client st nm).getLast? = some [] ∧
       (∀ b ∈ (fetch_dynamic_playlist_cached ok_client st nm).dropLast, b ≠ []) ∧
       (hydrated = [] → fetch_dynamic_playlist_cached ok_client st nm = [[]]))) :=
  fetch_dynamic_playlist_sentinel ok_client dp_plain rfl rfl (by decide) (["a"], [])
    (by decide) [(({ uri := "a" } : SongInfo), some ({} : Stickers))] rfl (by decide)

end Euphonica
